import Mathlib

/-!
Verification of the Purview glossary manager (`src/purview_glossary/glossary.py`).

The Python code is a thin HTTP client.  We embed it shallowly: the network is
modelled by an `Env` record that gives, for each request the code can issue,
the status code and parsed JSON body the catalog would answer with.  Each
Python method becomes a pure Lean function from its arguments and the `Env` to
`(result, trace)`, where `result` is `Except PurviewError _` (a raised Python
exception becomes `.error`) and `trace` is the ordered list of HTTP requests
the call issued.  Python `dict` lookups that can raise `KeyError` are mapped
to association-list lookups returning `Option`, with `.error (.keyError _)`
where the Python would raise.
-/

/-- An entry of the catalog's term collection, as the code reads it: the code
accesses `item["name"]`, `item["domain"]` (a domain id) and `term["id"]`. -/
structure CatalogTerm where
  id : String
  name : String
  domain : String
deriving Repr, DecidableEq

/-- An entry of the `GET /businessdomains` response: the code reads
`item["name"]` and `item["id"]`. -/
structure DomainEntry where
  name : String
  id : String
deriving Repr, DecidableEq

/-- One input record of `upload_glossary_terms`: the code reads
`term["name"]`, `term["description"]`, `term["status"]`, `term["domain"]`
(a human-readable domain name). -/
structure TermRecord where
  name : String
  description : String
  status : String
  domain : String
deriving Repr, DecidableEq

/-- The JSON body posted by the create path (`term_payload` in the source):
`domain` here is the resolved domain id. -/
structure TermPayload where
  name : String
  description : String
  status : String
  domain : String
deriving Repr, DecidableEq

/-- The parsed body of `GET /terms`, of which the code uses the `value`
field. -/
structure TermsJson where
  value : List CatalogTerm
deriving Repr, DecidableEq

/-- Python exceptions raised by the glossary manager, tagged by kind; the
source raises bare `Exception`s distinguished only by message, and a `dict`
subscript on a missing key raises `KeyError`. -/
inductive PurviewError where
  | permissionError (msg : String)
  | keyError (key : String)
  | usageError (msg : String)
  | notFoundError (msg : String)
deriving Repr, DecidableEq

/-- An HTTP request the manager can issue. -/
inductive Request where
  | getTerms
  | getDomains
  | getTermById (id : String)
  | postTerm (body : TermPayload)
  | deleteTerm (id : String)
deriving Repr, DecidableEq

/-- The remote catalog's behaviour: status code and parsed body for every
request shape the code can send. -/
structure Env where
  listTermsStatus : Nat
  listTermsJson : TermsJson
  domainsStatus : Nat
  domainsValue : List DomainEntry
  getTermStatus : String → Nat
  getTermBody : String → CatalogTerm
  postStatus : TermPayload → Nat
  deleteStatus : String → Nat

/-- Insertion into a Python `dict` modelled as an association list:
overwrites the value of an existing key in place, otherwise appends,
preserving insertion order as `dict` does. -/
def dictInsert (m : List (String × String)) (k v : String) :
    List (String × String) :=
  if (m.lookup k).isSome then
    m.map (fun p => if p.1 == k then (k, v) else p)
  else
    m ++ [(k, v)]

/-- The `domains` dict built by `get_all_domains`:
`for item in response.json()["value"]: domains[item["name"]] = item['id']`. -/
def buildDomains (items : List DomainEntry) : List (String × String) :=
  items.foldl (fun m item => dictInsert m item.name item.id) []

/-- `get_all_glossary_terms` (glossary.py lines 23-40): raises a permission
error on status 403, otherwise returns the parsed body. -/
def get_all_glossary_terms (env : Env) :
    Except PurviewError TermsJson × List Request :=
  if env.listTermsStatus == 403 then
    (.error (.permissionError "Permission error. Check Data Steward Role."),
     [.getTerms])
  else
    (.ok env.listTermsJson, [.getTerms])

/-- `get_all_domains` (glossary.py lines 42-52): raises on any status >= 400,
otherwise builds the name-to-id dict. -/
def get_all_domains (env : Env) :
    Except PurviewError (List (String × String)) × List Request :=
  if env.domainsStatus ≥ 400 then
    (.error (.permissionError "Permission error. Check Data Steward Role."),
     [.getDomains])
  else
    (.ok (buildDomains env.domainsValue), [.getDomains])

/-- `__check_term_exists` (glossary.py lines 108-135).  The loop body is
`if item["name"] == name and item["domain"] == all_domains[domain]`; Python's
`and` short-circuits, so `all_domains[domain]` (which raises `KeyError` on a
missing key) is evaluated only when the name comparison succeeds. -/
def check_term_exists (name domain : String) (all_terms : List CatalogTerm)
    (all_domains : List (String × String)) : Except PurviewError Bool :=
  match all_terms with
  | [] => .ok false
  | item :: rest =>
    if item.name == name then
      match all_domains.lookup domain with
      | none => .error (.keyError domain)
      | some domId =>
        if item.domain == domId then
          .ok true
        else
          check_term_exists name domain rest all_domains
    else
      check_term_exists name domain rest all_domains

/-- Python truthiness of an optional string argument: `None` and the empty
string are falsy, every other string is truthy.  `get_term` guards its
branches with `if term_id and term_name`, `if term_id`, `elif term_name`,
which test truthiness, not whether the argument was passed. -/
def pyTruthy : Option String → Bool
  | none => false
  | some s => !(s == "")

/-- Result of `get_term`: a single term when fetched by id, the list of
name-matches when fetched by name. -/
inductive GetTermResult where
  | byId (t : CatalogTerm)
  | byName (ts : List CatalogTerm)
deriving Repr, DecidableEq

/-- `get_term` (glossary.py lines 54-106).  `None` models an argument left at
its default; `some s` an argument passed with value `s`. -/
def get_term (term_id term_name : Option String) (env : Env) :
    Except PurviewError GetTermResult × List Request :=
  if pyTruthy term_id && pyTruthy term_name then
    (.error (.usageError "Provide either term_id or term_name, not both."),
     [])
  else if pyTruthy term_id then
    let tid := term_id.getD ""
    if env.getTermStatus tid == 403 then
      (.error (.permissionError "Permission error. Check Data Steward Role."),
       [.getTermById tid])
    else
      (.ok (.byId (env.getTermBody tid)), [.getTermById tid])
  else if pyTruthy term_name then
    let tname := term_name.getD ""
    match get_all_glossary_terms env with
    | (.error e, tr) => (.error e, tr)
    | (.ok json, tr) =>
      let response := json.value.filter (fun t => t.name == tname)
      if response.isEmpty then
        (.error (.notFoundError ("The term [" ++ tname ++
          "] could not be found.")), tr)
      else
        (.ok (.byName response), tr)
  else
    (.error (.usageError "Either term_id or term_name must be provided."),
     [])

/-- `__create_term` (glossary.py lines 171-207), given the two snapshots and
the catalog's response to a POST.  If the existence check passes, the method
returns `None` without any request; otherwise it builds `term_payload`
(evaluating `all_domains[domain]`, which raises `KeyError` on a missing key
before any POST) and issues the create, raising on status 403. -/
def create_term_aux (name description status domain : String)
    (all_terms : List CatalogTerm) (all_domains : List (String × String))
    (postStatus : TermPayload → Nat) :
    Except PurviewError Unit × List Request :=
  match check_term_exists name domain all_terms all_domains with
  | .error e => (.error e, [])
  | .ok true => (.ok (), [])
  | .ok false =>
    match all_domains.lookup domain with
    | none => (.error (.keyError domain), [])
    | some domId =>
      let term_payload : TermPayload :=
        { name := name, description := description, status := status,
          domain := domId }
      if postStatus term_payload == 403 then
        (.error (.permissionError ("Permission error. Check Data Steward " ++
          "Role on governance domain [" ++ domain ++ "].")),
         [.postTerm term_payload])
      else
        (.ok (), [.postTerm term_payload])

/-- The `for term in terms` loop of `upload_glossary_terms` (glossary.py
lines 163-168): creates each record in input order against the shared
snapshots; a raised exception aborts the rest of the loop. -/
def uploadLoop (records : List TermRecord) (all_terms : List CatalogTerm)
    (all_domains : List (String × String)) (postStatus : TermPayload → Nat) :
    Except PurviewError Unit × List Request :=
  match records with
  | [] => (.ok (), [])
  | r :: rest =>
    match create_term_aux r.name r.description r.status r.domain all_terms
        all_domains postStatus with
    | (.error e, tr) => (.error e, tr)
    | (.ok _, tr) =>
      let next := uploadLoop rest all_terms all_domains postStatus
      (next.1, tr ++ next.2)

/-- `upload_glossary_terms` (glossary.py lines 137-168): snapshots terms and
domains once, then runs the create loop with the shared snapshots. -/
def upload_glossary_terms (records : List TermRecord) (env : Env) :
    Except PurviewError Unit × List Request :=
  match get_all_glossary_terms env with
  | (.error e, tr) => (.error e, tr)
  | (.ok json, tr) =>
    match get_all_domains env with
    | (.error e, tr2) => (.error e, tr ++ tr2)
    | (.ok all_domains, tr2) =>
      let body := uploadLoop records json.value all_domains env.postStatus
      (body.1, tr ++ tr2 ++ body.2)

/-- `create_term` (glossary.py lines 209-245), the public single-term
variant: fetches fresh snapshots, then performs the same check-then-create
logic as `__create_term`. -/
def create_term (name description status domain : String) (env : Env) :
    Except PurviewError Unit × List Request :=
  match get_all_glossary_terms env with
  | (.error e, tr) => (.error e, tr)
  | (.ok json, tr) =>
    match get_all_domains env with
    | (.error e, tr2) => (.error e, tr ++ tr2)
    | (.ok all_domains, tr2) =>
      let body := create_term_aux name description status domain json.value
        all_domains env.postStatus
      (body.1, tr ++ tr2 ++ body.2)

/-- `delete_glossary_term` (glossary.py lines 247-264): issues the DELETE and
returns the raw status code; never raises (403 is only logged). -/
def delete_glossary_term (term_id : String) (env : Env) :
    Nat × List Request :=
  (env.deleteStatus term_id, [.deleteTerm term_id])

/-- The `for term in all_terms["value"]` loop of `delete_all_glossary_term`:
deletes each listed term in order; the per-item status code only selects a
log line, never an exception. -/
def deleteLoop (terms : List CatalogTerm) (env : Env) : List Request :=
  match terms with
  | [] => []
  | t :: rest => (delete_glossary_term t.id env).2 ++ deleteLoop rest env

/-- `delete_all_glossary_term` (glossary.py lines 266-292): lists all terms,
then best-effort deletes each one. -/
def delete_all_glossary_term (env : Env) :
    Except PurviewError Unit × List Request :=
  match get_all_glossary_terms env with
  | (.error e, tr) => (.error e, tr)
  | (.ok json, tr) => (.ok (), tr ++ deleteLoop json.value env)

/-- The create requests of a trace, in order. -/
def postsOf : List Request → List TermPayload
  | [] => []
  | .postTerm p :: rest => p :: postsOf rest
  | _ :: rest => postsOf rest

/-- The catalog entry a successful `POST /terms` leaves behind: the created
term carries the posted name and resolved domain id (its catalog-assigned id
is irrelevant to the dedup check, which reads only name and domain). -/
def createdEntry (p : TermPayload) : CatalogTerm :=
  { id := "", name := p.name, domain := p.domain }

/-- An environment in which every catalog call succeeds: the term collection
is `terms`, the domain collection is `domains`, all statuses are successes. -/
def successEnv (terms : List CatalogTerm) (domains : List DomainEntry) : Env :=
  { listTermsStatus := 200, listTermsJson := ⟨terms⟩,
    domainsStatus := 200, domainsValue := domains,
    getTermStatus := fun _ => 200,
    getTermBody := fun _ => { id := "", name := "", domain := "" },
    postStatus := fun _ => 200, deleteStatus := fun _ => 204 }

/-- A catalog answering `GET /terms` with status 403. -/
def env403 : Env :=
  { successEnv [] [] with listTermsStatus := 403 }

/-- A catalog answering `GET /terms` with status 500 and an empty body. -/
def env500 : Env :=
  { successEnv [] [] with listTermsStatus := 500 }

/-- A catalog answering `GET /businessdomains` with status 500. -/
def envDomains500 : Env :=
  { successEnv [] [] with domainsStatus := 500 }

/-- A one-term catalog: the term `Revenue` in domain id `dom-123`. -/
def termsRevenue : List CatalogTerm :=
  [{ id := "t1", name := "Revenue", domain := "dom-123" }]

/-- A catalog holding only `termsRevenue`, all calls succeeding. -/
def envRevenue : Env :=
  successEnv termsRevenue []

/-- A one-domain catalog snapshot: `HR` with id `dom-9` (no `Finance`). -/
def envHROnly : Env :=
  successEnv [] [{ name := "HR", id := "dom-9" }]

/-- A two-record input batch over the `Finance` domain. -/
def recsFinance : List TermRecord :=
  [{ name := "Revenue", description := "rev", status := "Draft",
     domain := "Finance" },
   { name := "Cost", description := "cost", status := "Draft",
     domain := "Finance" }]

/-- The domain collection holding only `Finance` with id `dom-123`. -/
def domsFinance : List DomainEntry :=
  [{ name := "Finance", id := "dom-123" }]

/-- A three-term catalog in which deleting the second term is forbidden
(status 403) while the others succeed (status 204). -/
def envThreeTerms : Env :=
  { successEnv
      [{ id := "t1", name := "A", domain := "d" },
       { id := "t2", name := "B", domain := "d" },
       { id := "t3", name := "C", domain := "d" }] [] with
    deleteStatus := fun id => if id == "t2" then 403 else 204 }

/-- Helper: when the domain name resolves, `check_term_exists` never raises
and decides exactly the existence of a matching (name, domain-id) entry. -/
lemma check_term_exists_eq_any (n d : String) (S : List CatalogTerm)
    (Dm : List (String × String)) (dId : String)
    (h : Dm.lookup d = some dId) :
    check_term_exists n d S Dm =
      .ok (S.any (fun t => t.name == n && t.domain == dId)) := by
  induction S with
  | nil => rfl
  | cons item rest ih =>
    unfold check_term_exists
    by_cases hn : item.name == n
    · simp only [hn, if_pos, h]
      by_cases hd : item.domain == dId
      · simp [hn, hd]
      · simp only [List.any_cons, hn, hd, Bool.true_and, Bool.false_or]
        simpa using ih
    · simp only [hn, if_neg, List.any_cons, Bool.false_and, Bool.false_or]
      simp only [Bool.not_eq_true] at hn
      simp [hn, ih]

/-- Helper: when the domain name does not resolve, `check_term_exists` raises
`KeyError` exactly when some entry's name matches (short-circuit evaluation),
and returns `false` otherwise. -/
lemma check_term_exists_lookup_none (n d : String) (S : List CatalogTerm)
    (Dm : List (String × String)) (h : Dm.lookup d = none) :
    check_term_exists n d S Dm =
      if S.any (fun t => t.name == n) then .error (.keyError d)
      else .ok false := by
  induction S with
  | nil => rfl
  | cons item rest ih =>
    unfold check_term_exists
    by_cases hn : item.name == n
    · simp [hn, h]
    · simp only [Bool.not_eq_true] at hn
      simp [hn, ih]

/-- Helper: when the domain name resolves and the snapshot has no matching
entry, the create path issues exactly one POST carrying the record fields
with the resolved id — whatever status the catalog then answers with. -/
lemma create_term_aux_trace_creates (n desc st d : String)
    (S : List CatalogTerm) (Dm : List (String × String)) (dId : String)
    (ps : TermPayload → Nat) (h : Dm.lookup d = some dId)
    (hm : (S.any fun t => t.name == n && t.domain == dId) = false) :
    (create_term_aux n desc st d S Dm ps).2 =
      [.postTerm { name := n, description := desc, status := st,
                   domain := dId }] := by
  unfold create_term_aux
  rw [check_term_exists_eq_any n d S Dm dId h, hm]
  simp only [h]
  split <;> rfl

/-- Helper: when the domain name resolves and the POST would not answer 403,
the create path returns successfully, posting exactly when no snapshot entry
matches. -/
lemma create_term_aux_resolved (n desc st d : String) (S : List CatalogTerm)
    (Dm : List (String × String)) (dId : String) (ps : TermPayload → Nat)
    (h : Dm.lookup d = some dId)
    (hps : ps { name := n, description := desc, status := st,
                domain := dId } ≠ 403) :
    create_term_aux n desc st d S Dm ps =
      if (S.any fun t => t.name == n && t.domain == dId) then (.ok (), [])
      else (.ok (), [.postTerm { name := n, description := desc,
                                 status := st, domain := dId }]) := by
  unfold create_term_aux
  rw [check_term_exists_eq_any n d S Dm dId h]
  by_cases hm : (S.any fun t => t.name == n && t.domain == dId)
  · simp [hm]
  · simp only [Bool.not_eq_true] at hm
    simp [hm, h, hps]

/-- Helper: when the domain name does not resolve, the create path raises
`KeyError` (either inside the existence check or while building the payload)
and issues no request at all. -/
lemma create_term_aux_lookup_none (n desc st d : String)
    (S : List CatalogTerm) (Dm : List (String × String))
    (ps : TermPayload → Nat) (h : Dm.lookup d = none) :
    create_term_aux n desc st d S Dm ps = (.error (.keyError d), []) := by
  unfold create_term_aux
  rw [check_term_exists_lookup_none n d S Dm h]
  by_cases hm : (S.any fun t => t.name == n) <;> simp [hm, h]

/-- Helper: a create call that returned without raising resolved its domain
name. -/
lemma create_term_aux_ok_resolves (n desc st d : String)
    (S : List CatalogTerm) (Dm : List (String × String))
    (ps : TermPayload → Nat)
    (h : (create_term_aux n desc st d S Dm ps).1 = .ok ()) :
    (Dm.lookup d).isSome := by
  cases hl : Dm.lookup d with
  | some v => rfl
  | none =>
    rw [create_term_aux_lookup_none n desc st d S Dm ps hl] at h
    simp at h

/-- Helper: `postsOf` distributes over trace concatenation. -/
lemma postsOf_append (a b : List Request) :
    postsOf (a ++ b) = postsOf a ++ postsOf b := by
  induction a with
  | nil => rfl
  | cons r rest ih => cases r <;> simp [postsOf, ih]

/-- Helper: a leading `GET /terms` contributes no create request. -/
lemma postsOf_getTerms (rest : List Request) :
    postsOf (.getTerms :: rest) = postsOf rest := rfl

/-- Helper: a leading `GET /businessdomains` contributes no create
request. -/
lemma postsOf_getDomains (rest : List Request) :
    postsOf (.getDomains :: rest) = postsOf rest := rfl

/-- Helper: one unfolding of the batch loop on a non-empty input. -/
lemma uploadLoop_cons (r : TermRecord) (rest : List TermRecord)
    (T : List CatalogTerm) (Dm : List (String × String))
    (ps : TermPayload → Nat) :
    uploadLoop (r :: rest) T Dm ps =
      match create_term_aux r.name r.description r.status r.domain T Dm ps
        with
      | (.error e, tr) => (.error e, tr)
      | (.ok _, tr) =>
        ((uploadLoop rest T Dm ps).1, tr ++ (uploadLoop rest T Dm ps).2) :=
  rfl

/-- Helper: when every input record already matches an entry of the shared
terms snapshot, the batch loop succeeds without issuing any request. -/
lemma uploadLoop_skip (records : List TermRecord) (T : List CatalogTerm)
    (Dm : List (String × String)) (ps : TermPayload → Nat)
    (h : ∀ r ∈ records, ∃ dId, Dm.lookup r.domain = some dId ∧
      (T.any fun t => t.name == r.name && t.domain == dId) = true) :
    uploadLoop records T Dm ps = (.ok (), []) := by
  induction records with
  | nil => rfl
  | cons r rest ih =>
    obtain ⟨dId, hl, hm⟩ := h r (List.mem_cons_self r rest)
    have hc : create_term_aux r.name r.description r.status r.domain T Dm ps =
        (.ok (), []) := by
      unfold create_term_aux
      rw [check_term_exists_eq_any r.name r.domain T Dm dId hl, hm]
    have hrest := ih (fun s hs => h s (List.mem_cons_of_mem r hs))
    unfold uploadLoop
    rw [hc, hrest]
    rfl

/-- Helper: a batch loop that returned without raising resolved every
record's domain name. -/
lemma uploadLoop_ok_resolves (records : List TermRecord)
    (T : List CatalogTerm) (Dm : List (String × String))
    (ps : TermPayload → Nat)
    (h : (uploadLoop records T Dm ps).1 = .ok ()) :
    ∀ r ∈ records, (Dm.lookup r.domain).isSome := by
  induction records with
  | nil => simp
  | cons r rest ih =>
    intro s hs
    rcases hc : create_term_aux r.name r.description r.status r.domain T Dm ps
      with ⟨cres, ctr⟩
    cases cres with
    | error e =>
      exfalso
      unfold uploadLoop at h
      rw [hc] at h
      simp at h
    | ok u =>
      have hrest : (uploadLoop rest T Dm ps).1 = .ok () := by
        unfold uploadLoop at h
        rw [hc] at h
        exact h
      rcases List.mem_cons.mp hs with rfl | hs2
      · exact create_term_aux_ok_resolves s.name s.description s.status
          s.domain T Dm ps (by rw [hc])
      · exact ih hrest s hs2

/-- Helper: every record a successful batch run processed either already
matched the shared snapshot, or had its payload posted by that run. -/
lemma uploadLoop_covers (records : List TermRecord) (T : List CatalogTerm)
    (Dm : List (String × String)) (ps : TermPayload → Nat)
    (hps : ∀ p, ps p ≠ 403)
    (h : (uploadLoop records T Dm ps).1 = .ok ()) :
    ∀ r ∈ records, ∃ dId, Dm.lookup r.domain = some dId ∧
      ((T.any fun t => t.name == r.name && t.domain == dId) = true ∨
        TermPayload.mk r.name r.description r.status dId ∈
          postsOf (uploadLoop records T Dm ps).2) := by
  induction records with
  | nil => simp
  | cons r rest ih =>
    rcases hc : create_term_aux r.name r.description r.status r.domain T Dm ps
      with ⟨cres, ctr⟩
    cases cres with
    | error e =>
      exfalso
      unfold uploadLoop at h
      rw [hc] at h
      simp at h
    | ok u =>
      have hrest : (uploadLoop rest T Dm ps).1 = .ok () := by
        unfold uploadLoop at h
        rw [hc] at h
        exact h
      have htr : (uploadLoop (r :: rest) T Dm ps).2 =
          ctr ++ (uploadLoop rest T Dm ps).2 := by
        rw [uploadLoop_cons, hc]
      have hsome := create_term_aux_ok_resolves r.name r.description r.status
        r.domain T Dm ps (by rw [hc])
      rcases Option.isSome_iff_exists.mp hsome with ⟨dId, hdId⟩
      intro s hs
      rcases List.mem_cons.mp hs with rfl | hs2
      · refine ⟨dId, hdId, ?_⟩
        by_cases hm : (T.any fun t => t.name == s.name && t.domain == dId)
          = true
        · exact Or.inl hm
        · right
          simp only [Bool.not_eq_true] at hm
          have hcr := create_term_aux_resolved s.name s.description s.status
            s.domain T Dm dId ps hdId (hps _)
          rw [hm] at hcr
          simp only [Bool.false_eq_true, if_false] at hcr
          have hctr : ctr =
              [Request.postTerm (TermPayload.mk s.name s.description s.status
                dId)] := by
            have := hc.symm.trans hcr
            exact (Prod.mk.injEq _ _ _ _).mp this |>.2
          rw [htr, postsOf_append, hctr]
          simp [postsOf]
      · obtain ⟨dId2, hd2, hcase⟩ := ih hrest s hs2
        refine ⟨dId2, hd2, ?_⟩
        rcases hcase with hmatch | hmem
        · exact Or.inl hmatch
        · right
          rw [htr, postsOf_append]
          exact List.mem_append_right _ hmem

/-- Helper: `upload_glossary_terms` against an all-success catalog reduces to
the batch loop over the two snapshots. -/
lemma upload_successEnv (records : List TermRecord) (T : List CatalogTerm)
    (D : List DomainEntry) :
    upload_glossary_terms records (successEnv T D) =
      ((uploadLoop records T (buildDomains D) (fun _ => 200)).1,
        .getTerms :: .getDomains ::
          (uploadLoop records T (buildDomains D) (fun _ => 200)).2) := by
  rfl

/-- Helper: the best-effort delete loop issues exactly one DELETE per listed
term, in listing order. -/
lemma deleteLoop_eq_map (ts : List CatalogTerm) (env : Env) :
    deleteLoop ts env = ts.map (fun t => Request.deleteTerm t.id) := by
  induction ts with
  | nil => rfl
  | cons t rest ih => simp [deleteLoop, delete_glossary_term, ih]

/-- C1: with the domain name `d` present in the domains mapping,
`__check_term_exists` returns true iff some snapshot entry has the given
name and the id the mapping assigns to `d`, and returns false exactly on the
complements; it is a pure function of its four arguments (it takes no `Env`
and issues no request in the embedding, matching the I/O-free source). -/
theorem check_term_exists_correct (n d : String) (S : List CatalogTerm)
    (Dm : List (String × String)) (dId : String)
    (h : Dm.lookup d = some dId) :
    (check_term_exists n d S Dm = .ok true ↔
      ∃ t ∈ S, t.name = n ∧ t.domain = dId) ∧
    (check_term_exists n d S Dm = .ok false ↔
      ¬∃ t ∈ S, t.name = n ∧ t.domain = dId) := by
  rw [check_term_exists_eq_any n d S Dm dId h]
  constructor
  · simp [List.any_eq_true]
  · constructor
    · intro hfalse hex
      rcases hex with ⟨t, ht, h1, h2⟩
      have : (S.any fun t => t.name == n && t.domain == dId) = true := by
        rw [List.any_eq_true]
        exact ⟨t, ht, by simp [h1, h2]⟩
      simp [this] at hfalse
    · intro hnex
      have : (S.any fun t => t.name == n && t.domain == dId) = false := by
        by_contra hb
        rw [Bool.not_eq_false, List.any_eq_true] at hb
        rcases hb with ⟨t, ht, hp⟩
        simp only [Bool.and_eq_true, beq_iff_eq] at hp
        exact hnex ⟨t, ht, hp.1, hp.2⟩
      rw [this]

/-- C1 witness: the `Revenue` term is found in `Finance`, and only entries
with both fields matching count. -/
theorem check_term_exists_correct_witness :
    (check_term_exists "Revenue" "Finance" termsRevenue
        [("Finance", "dom-123")] = .ok true ↔
      ∃ t ∈ termsRevenue, t.name = "Revenue" ∧ t.domain = "dom-123") ∧
    (check_term_exists "Revenue" "Finance" termsRevenue
        [("Finance", "dom-123")] = .ok false ↔
      ¬∃ t ∈ termsRevenue, t.name = "Revenue" ∧ t.domain = "dom-123") :=
  check_term_exists_correct "Revenue" "Finance" termsRevenue
    [("Finance", "dom-123")] "dom-123" (by decide)

/-- C3: with the record's domain name resolving to `dId`, the create path
issues zero requests and succeeds when a snapshot entry matches on name and
resolved domain id, and otherwise issues exactly one create whose body
carries the record's name, description and status with the domain replaced
by the resolved id. -/
theorem create_term_aux_correct (n desc st d : String)
    (S : List CatalogTerm) (Dm : List (String × String)) (dId : String)
    (ps : TermPayload → Nat) (h : Dm.lookup d = some dId) :
    ((∃ t ∈ S, t.name = n ∧ t.domain = dId) →
      create_term_aux n desc st d S Dm ps = (.ok (), [])) ∧
    ((¬∃ t ∈ S, t.name = n ∧ t.domain = dId) →
      (create_term_aux n desc st d S Dm ps).2 =
        [.postTerm { name := n, description := desc, status := st,
                     domain := dId }]) := by
  constructor
  · intro hex
    have hm : (S.any fun t => t.name == n && t.domain == dId) = true := by
      rw [List.any_eq_true]
      rcases hex with ⟨t, ht, h1, h2⟩
      exact ⟨t, ht, by simp [h1, h2]⟩
    unfold create_term_aux
    rw [check_term_exists_eq_any n d S Dm dId h, hm]
  · intro hnex
    have hm : (S.any fun t => t.name == n && t.domain == dId) = false := by
      by_contra hb
      rw [Bool.not_eq_false, List.any_eq_true] at hb
      rcases hb with ⟨t, ht, hp⟩
      simp only [Bool.and_eq_true, beq_iff_eq] at hp
      exact hnex ⟨t, ht, hp.1, hp.2⟩
    exact create_term_aux_trace_creates n desc st d S Dm dId ps h hm

/-- C3 witness: the fresh-create and skip-existing scenarios of the spec, on
the `Revenue` record over domains mapping `Finance` to `dom-123`. -/
theorem create_term_aux_correct_witness :
    ((∃ t ∈ termsRevenue, t.name = "Revenue" ∧ t.domain = "dom-123") →
      create_term_aux "Revenue" "rev" "Draft" "Finance" termsRevenue
        [("Finance", "dom-123")] (fun _ => 200) = (.ok (), [])) ∧
    ((¬∃ t ∈ termsRevenue, t.name = "Revenue" ∧ t.domain = "dom-123") →
      (create_term_aux "Revenue" "rev" "Draft" "Finance" termsRevenue
        [("Finance", "dom-123")] (fun _ => 200)).2 =
        [.postTerm { name := "Revenue", description := "rev",
                     status := "Draft", domain := "dom-123" }]) :=
  create_term_aux_correct "Revenue" "rev" "Draft" "Finance" termsRevenue
    [("Finance", "dom-123")] "dom-123" (fun _ => 200) (by decide)

/-- C4 counterexample: the claim says a missing domain name raises a lookup
error for every snapshot, including an empty one or one with no name match;
the code returns false in both of those cases, because the `KeyError`-raising
subscript sits after the short-circuiting name comparison.  Here `Finance`
is absent from the (empty) domains mapping, yet both calls return
`.ok false` instead of an error. -/
theorem check_term_exists_c4_counterexample :
    List.lookup "Finance" ([] : List (String × String)) = none ∧
    check_term_exists "Revenue" "Finance" [] [] = .ok false ∧
    check_term_exists "Revenue" "Finance"
      [{ id := "t1", name := "Cost", domain := "dom-1" }] [] = .ok false := by
  refine ⟨rfl, rfl, ?_⟩
  rfl

/-- C4 amended: with the domain name absent from the domains mapping,
`__check_term_exists` raises a lookup error iff some snapshot entry's name
matches the queried name (the domain subscript is only evaluated after a
name match); with an empty snapshot, or one in which no entry's name
matches, it returns false without raising. -/
theorem check_term_exists_missing_domain (n d : String)
    (S : List CatalogTerm) (Dm : List (String × String))
    (h : Dm.lookup d = none) :
    check_term_exists n d S Dm =
      if S.any (fun t => t.name == n) then .error (.keyError d)
      else .ok false :=
  check_term_exists_lookup_none n d S Dm h

/-- C4 witness: with a name-matching entry present, the missing domain name
does raise the lookup error. -/
theorem check_term_exists_missing_domain_witness :
    check_term_exists "Revenue" "Finance" termsRevenue [("HR", "dom-9")] =
      if termsRevenue.any (fun t => t.name == "Revenue")
      then .error (.keyError "Finance") else .ok false :=
  check_term_exists_missing_domain "Revenue" "Finance" termsRevenue
    [("HR", "dom-9")] (by decide)

/-- C5 counterexample: the claim says every non-success status other than
403 surfaces a generic API error; the code checks only 403, so a 500
response is returned normally (its parsed body is handed back as if the call
had succeeded). -/
theorem get_all_glossary_terms_c5_counterexample :
    500 ≥ 400 ∧ 500 ≠ 403 ∧
    get_all_glossary_terms env500 = (.ok ⟨[]⟩, [.getTerms]) := by
  refine ⟨by decide, by decide, rfl⟩

/-- C5 amended: `get_all_glossary_terms` raises a permission error exactly
on status 403; every other status — success or not — returns the parsed
response body normally. -/
theorem get_all_glossary_terms_status (env : Env) :
    (env.listTermsStatus = 403 →
      get_all_glossary_terms env =
        (.error (.permissionError
          "Permission error. Check Data Steward Role."), [.getTerms])) ∧
    (env.listTermsStatus ≠ 403 →
      get_all_glossary_terms env = (.ok env.listTermsJson, [.getTerms])) := by
  constructor
  · intro h
    unfold get_all_glossary_terms
    simp [h]
  · intro h
    unfold get_all_glossary_terms
    simp [h]

/-- C5 witness: the 403 and non-403 branches at concrete environments. -/
theorem get_all_glossary_terms_status_witness :
    get_all_glossary_terms env403 =
      (.error (.permissionError
        "Permission error. Check Data Steward Role."), [.getTerms]) ∧
    get_all_glossary_terms env500 = (.ok ⟨[]⟩, [.getTerms]) :=
  ⟨(get_all_glossary_terms_status env403).1 rfl,
   (get_all_glossary_terms_status env500).2 (by decide)⟩

/-- C6: with the record's domain name absent from the domains mapping, both
`__create_term` (over given snapshots) and the public `create_term` (which
fetches fresh snapshots) raise the lookup error before issuing any write:
their traces contain no POST at all. -/
theorem create_term_unresolved_domain (n desc st d : String)
    (S : List CatalogTerm) (Dm : List (String × String))
    (ps : TermPayload → Nat) (env : Env) (hd : Dm.lookup d = none)
    (henv1 : env.listTermsStatus ≠ 403) (henv2 : env.domainsStatus < 400)
    (henv3 : (buildDomains env.domainsValue).lookup d = none) :
    create_term_aux n desc st d S Dm ps = (.error (.keyError d), []) ∧
    create_term n desc st d env =
      (.error (.keyError d), [.getTerms, .getDomains]) := by
  constructor
  · exact create_term_aux_lookup_none n desc st d S Dm ps hd
  · have h2 : ¬ env.domainsStatus ≥ 400 := Nat.not_le.mpr henv2
    unfold create_term get_all_glossary_terms get_all_domains
    simp [henv1, h2,
      create_term_aux_lookup_none n desc st d env.listTermsJson.value
        (buildDomains env.domainsValue) env.postStatus henv3]

/-- C6 witness: creating `Revenue` under the unknown domain `Finance`
against a catalog whose only domain is `HR`. -/
theorem create_term_unresolved_domain_witness :
    create_term_aux "Revenue" "rev" "Draft" "Finance" [] [("HR", "dom-9")]
      (fun _ => 200) = (.error (.keyError "Finance"), []) ∧
    create_term "Revenue" "rev" "Draft" "Finance" envHROnly =
      (.error (.keyError "Finance"), [.getTerms, .getDomains]) :=
  create_term_unresolved_domain "Revenue" "rev" "Draft" "Finance" []
    [("HR", "dom-9")] (fun _ => 200) envHROnly (by decide) (by decide)
    (by decide) (by decide)

/-- C7 counterexample: the claim says calling `get_term` with both selectors
supplied always raises the usage error and performs no network call; here
both are supplied (`term_id` bound to the empty string, `term_name` to
`Revenue`), yet the call issues `GET /terms` and returns the name matches
instead of raising. -/
theorem get_term_c7_counterexample :
    get_term (some "") (some "Revenue") envRevenue =
      (.ok (.byName [{ id := "t1", name := "Revenue",
                       domain := "dom-123" }]), [.getTerms]) := by
  rfl

/-- C7 amended: `get_term` raises the usage errors on truthiness, not on
presence: when both selectors are truthy (non-empty strings) it raises the
both-given error with no network call, and when both are falsy (absent or
empty) it raises the neither-given error with no network call. -/
theorem get_term_selector_exclusivity (term_id term_name : Option String)
    (env : Env) :
    (pyTruthy term_id = true → pyTruthy term_name = true →
      get_term term_id term_name env =
        (.error (.usageError
          "Provide either term_id or term_name, not both."), [])) ∧
    (pyTruthy term_id = false → pyTruthy term_name = false →
      get_term term_id term_name env =
        (.error (.usageError
          "Either term_id or term_name must be provided."), [])) := by
  constructor
  · intro h1 h2
    unfold get_term
    simp [h1, h2]
  · intro h1 h2
    unfold get_term
    simp [h1, h2]

/-- C7 witness: both selectors truthy, and neither selector passed. -/
theorem get_term_selector_exclusivity_witness :
    get_term (some "abc") (some "Revenue") envRevenue =
      (.error (.usageError
        "Provide either term_id or term_name, not both."), []) ∧
    get_term none none envRevenue =
      (.error (.usageError
        "Either term_id or term_name must be provided."), []) :=
  ⟨(get_term_selector_exclusivity (some "abc") (some "Revenue")
      envRevenue).1 rfl rfl,
   (get_term_selector_exclusivity none none envRevenue).2 rfl rfl⟩

/-- C8: a 403 on the initial terms listing aborts `upload_glossary_terms`
with the permission error after the single `GET /terms` — no create request
is issued; likewise a failing domains listing aborts after the two GETs,
still with no create request. -/
theorem upload_aborts_on_forbidden (records : List TermRecord)
    (envA envB : Env) (hA : envA.listTermsStatus = 403)
    (hB1 : envB.listTermsStatus ≠ 403) (hB2 : envB.domainsStatus ≥ 400) :
    upload_glossary_terms records envA =
      (.error (.permissionError
        "Permission error. Check Data Steward Role."), [.getTerms]) ∧
    upload_glossary_terms records envB =
      (.error (.permissionError
        "Permission error. Check Data Steward Role."),
       [.getTerms, .getDomains]) := by
  constructor
  · unfold upload_glossary_terms get_all_glossary_terms
    simp [hA]
  · unfold upload_glossary_terms get_all_glossary_terms get_all_domains
    simp [hB1, hB2]

/-- C8 witness: the forbidden listing aborts a two-record batch before any
create, for both the terms fetch and the domains fetch. -/
theorem upload_aborts_on_forbidden_witness :
    upload_glossary_terms recsFinance env403 =
      (.error (.permissionError
        "Permission error. Check Data Steward Role."), [.getTerms]) ∧
    upload_glossary_terms recsFinance envDomains500 =
      (.error (.permissionError
        "Permission error. Check Data Steward Role."),
       [.getTerms, .getDomains]) :=
  upload_aborts_on_forbidden recsFinance env403 envDomains500 rfl
    (by decide) (by decide)

/-- C9: `delete_glossary_term` returns the raw status code of the DELETE for
every response — its result type carries no exception, so a 403 is returned,
not raised — and `delete_all_glossary_term` issues one DELETE per listed
term in listing order whatever each status is, completing without error. -/
theorem delete_best_effort (term_id : String) (env : Env)
    (h : env.listTermsStatus ≠ 403) :
    delete_glossary_term term_id env =
      (env.deleteStatus term_id, [.deleteTerm term_id]) ∧
    delete_all_glossary_term env =
      (.ok (), .getTerms ::
        env.listTermsJson.value.map (fun t => Request.deleteTerm t.id)) := by
  refine ⟨rfl, ?_⟩
  unfold delete_all_glossary_term get_all_glossary_terms
  simp [h, deleteLoop_eq_map]

/-- C9 witness: over three terms where deleting the second answers 403, the
forbidden delete returns its status code, and all three deletions are still
attempted with no error overall. -/
theorem delete_best_effort_witness :
    delete_glossary_term "t2" envThreeTerms = (403, [.deleteTerm "t2"]) ∧
    delete_all_glossary_term envThreeTerms =
      (.ok (), [.getTerms, .deleteTerm "t1", .deleteTerm "t2",
                .deleteTerm "t3"]) := by
  have h := delete_best_effort "t2" envThreeTerms (by decide)
  exact ⟨h.1, h.2⟩

/-- C10: the selector check of `get_term` tests truthiness, not presence:
with `term_id` bound to the empty string and a non-empty `term_name`, the
name-lookup branch runs (the call issues exactly the `GET /terms` of the
name lookup and never returns a usage error), while binding both selectors
to empty strings raises the neither-supplied usage error with no request. -/
theorem get_term_truthiness (env : Env) (tname : String) (h : tname ≠ "") :
    (get_term (some "") (some tname) env).2 = [.getTerms] ∧
    (∀ m, (get_term (some "") (some tname) env).1 ≠
      .error (.usageError m)) ∧
    get_term (some "") (some "") env =
      (.error (.usageError
        "Either term_id or term_name must be provided."), []) := by
  have hid : pyTruthy (some "") = false := rfl
  have hname : pyTruthy (some tname) = true := by
    simp [pyTruthy, h]
  refine ⟨?_, ?_, ?_⟩
  · unfold get_term get_all_glossary_terms
    by_cases hs : env.listTermsStatus == 403 <;>
      by_cases hf : (env.listTermsJson.value.filter
        (fun t => t.name == tname)).isEmpty <;>
      simp [hid, hname, hs, hf]
  · intro m
    unfold get_term get_all_glossary_terms
    by_cases hs : env.listTermsStatus == 403 <;>
      by_cases hf : (env.listTermsJson.value.filter
        (fun t => t.name == tname)).isEmpty <;>
      simp [hid, hname, hs, hf]
  · rfl

/-- C10 witness: empty-string `term_id` with name `Revenue` runs the name
lookup against the catalog, and two empty strings raise the
neither-supplied error. -/
theorem get_term_truthiness_witness :
    (get_term (some "") (some "Revenue") envRevenue).2 = [.getTerms] ∧
    (∀ m, (get_term (some "") (some "Revenue") envRevenue).1 ≠
      .error (.usageError m)) ∧
    get_term (some "") (some "") envRevenue =
      (.error (.usageError
        "Either term_id or term_name must be provided."), []) :=
  get_term_truthiness envRevenue "Revenue" (by decide)

/-- C2: against a catalog whose only mutation between two runs is the set of
terms the first run created (each successful POST leaving behind an entry
with the posted name and resolved domain id), running
`upload_glossary_terms` twice on the same input — with no duplicate
(name, domain) pair in the batch — creates each term at most once: the
second run issues zero create requests. -/
theorem upload_glossary_terms_idempotent (records : List TermRecord)
    (T0 : List CatalogTerm) (D : List DomainEntry)
    (_h_nodup : records.Pairwise
      (fun r s => ¬(r.name = s.name ∧ r.domain = s.domain)))
    (h1 : (upload_glossary_terms records (successEnv T0 D)).1 = .ok ()) :
    postsOf (upload_glossary_terms records (successEnv
      (T0 ++ (postsOf
        (upload_glossary_terms records (successEnv T0 D)).2).map
          createdEntry) D)).2 = [] := by
  have hps : ∀ p : TermPayload, (fun _ : TermPayload => (200 : Nat)) p ≠ 403 :=
    fun _ => (by omega : (200 : Nat) ≠ 403)
  have hloop1 : (uploadLoop records T0 (buildDomains D)
      (fun _ => 200)).1 = .ok () := by
    have h2 := h1
    rw [upload_successEnv] at h2
    exact h2
  have hposts : postsOf
      (upload_glossary_terms records (successEnv T0 D)).2 =
      postsOf (uploadLoop records T0 (buildDomains D) (fun _ => 200)).2 := by
    rw [upload_successEnv]
    rfl
  rw [hposts, upload_successEnv]
  have hall : ∀ r ∈ records, ∃ dId,
      (buildDomains D).lookup r.domain = some dId ∧
      ((T0 ++ (postsOf (uploadLoop records T0 (buildDomains D)
          (fun _ => 200)).2).map createdEntry).any
        fun t => t.name == r.name && t.domain == dId) = true := by
    intro r hr
    obtain ⟨dId, hdId, hcase⟩ := uploadLoop_covers records T0
      (buildDomains D) (fun _ => 200) hps hloop1 r hr
    refine ⟨dId, hdId, ?_⟩
    rw [List.any_append]
    rcases hcase with hmatch | hmem
    · simp [hmatch]
    · have hmapped : (((postsOf (uploadLoop records T0 (buildDomains D)
          (fun _ => 200)).2).map createdEntry).any
            fun t => t.name == r.name && t.domain == dId) = true := by
        rw [List.any_eq_true]
        exact ⟨createdEntry
          { name := r.name, description := r.description,
            status := r.status, domain := dId },
          List.mem_map_of_mem createdEntry hmem, by simp [createdEntry]⟩
      simp [hmapped]
  rw [uploadLoop_skip records _ (buildDomains D) (fun _ => 200) hall]
  rfl

/-- C2 witness: a batch of `Revenue` (already in the catalog) and `Cost`
(new) over the `Finance` domain: after the first run's creates are applied
to the catalog, the second run issues zero create requests. -/
theorem upload_glossary_terms_idempotent_witness :
    postsOf (upload_glossary_terms recsFinance (successEnv
      (termsRevenue ++ (postsOf
        (upload_glossary_terms recsFinance
          (successEnv termsRevenue domsFinance)).2).map
          createdEntry) domsFinance)).2 = [] :=
  upload_glossary_terms_idempotent recsFinance termsRevenue domsFinance
    (by decide) (by rfl)
